import Mathlib

/-!
Verification of the sales-costing program `computeSales.py`.

The program loads a price catalogue (a JSON mapping from product name to
price) and a sales record (a JSON list of sale objects), folds a per-sale
costing function over the sales, and renders a fixed-layout text report.

The embedding below models JSON values (`JVal`), the relevant pieces of
Python semantics (truthiness, `dict.get`, `float(...)` coercion, `in`
membership, iteration, `float * x` multiplication, and the exceptions these
can raise), and then the functions `compute_sale_cost`, the aggregation
loop of `main`, and `write_results`, each translated from the source.
Numbers are modelled as exact rationals; JSON distinguishes no more than a
numeric literal, and the claims under study are about control flow and
exact sums, not binary floating-point rounding.
-/

/-- A parsed JSON value, as produced by the document loader.  Python keeps
JSON objects as insertion-ordered dictionaries; we keep the key/value list
(later duplicates win on lookup, as in `json.loads`). -/
inductive JVal where
  | null
  | bool (b : Bool)
  | num (q : ℚ)
  | str (s : String)
  | arr (xs : List JVal)
  | obj (kvs : List (String × JVal))

/-- The Python exceptions that can escape `compute_sale_cost`
(`AttributeError` from calling `.get` on a non-dict, `TypeError` from
iterating a non-iterable or hashing an unhashable key). -/
inductive PyErr where
  | attributeError
  | typeError
  deriving DecidableEq

/-- Decidable equality for `Except`, so that concrete runs of the engine can
be checked by evaluation. -/
def exceptDecEq {ε α : Type} [DecidableEq ε] [DecidableEq α] :
    DecidableEq (Except ε α) := fun a b =>
  match a, b with
  | .error e, .error f =>
      if h : e = f then .isTrue (by rw [h])
      else .isFalse (fun hh => by cases hh; exact h rfl)
  | .error _, .ok _ => .isFalse (fun hh => by cases hh)
  | .ok _, .error _ => .isFalse (fun hh => by cases hh)
  | .ok x, .ok y =>
      if h : x = y then .isTrue (by rw [h])
      else .isFalse (fun hh => by cases hh; exact h rfl)

instance {ε α : Type} [DecidableEq ε] [DecidableEq α] :
    DecidableEq (Except ε α) := exceptDecEq

/-- `d.get(key)` for a Python dict built from JSON: the last binding of a
key wins, absent keys give `none`. -/
def dictGet : List (String × JVal) → String → Option JVal
  | [], _ => none
  | (k, v) :: rest, key =>
    match dictGet rest key with
    | some v2 => some v2
    | none => if k == key then some v else none

/-- Python truthiness of a JSON value (`bool(x)`). -/
def truthy : JVal → Bool
  | .null => false
  | .bool b => b
  | .num q => !(q == 0)
  | .str s => !(s == "")
  | .arr xs => !xs.isEmpty
  | .obj kvs => !kvs.isEmpty

/-- A single-quote character, written by code so that report strings can be
assembled without quote literals. -/
def qc : String := "\x27"

/-- Canonical decimal rendering of a rational, used only for the `str()`
rendering of numeric values inside error messages (the theorems below rely
on the rendering of strings only). -/
def ratStr (q : ℚ) : String :=
  if q.den = 1 then toString q.num else toString q.num ++ "/" ++ toString q.den

/-- Python `str()` of a JSON value as used by the f-strings of the error
messages.  Strings render as themselves; for the non-scalar values, which
never reach a message in a run the theorems talk about, a canonical tag is
used. -/
def pyStr : JVal → String
  | .null => "None"
  | .bool true => "True"
  | .bool false => "False"
  | .num q => ratStr q
  | .str s => s
  | .arr _ => "<list>"
  | .obj _ => "<dict>"

/-- Numeric value of a run of decimal digit characters. -/
def digitsVal (cs : List Char) : Nat :=
  cs.foldl (fun a c => a * 10 + (c.toNat - 48)) 0

/-- Parse an unsigned decimal mantissa (digits, optionally with a decimal
point; at least one digit overall), returning its value and the unconsumed
input. -/
def parseDec (cs : List Char) : Option (ℚ × List Char) :=
  let ip := cs.takeWhile Char.isDigit
  let r1 := cs.dropWhile Char.isDigit
  match r1 with
  | '.' :: r2 =>
      let fp := r2.takeWhile Char.isDigit
      let r3 := r2.dropWhile Char.isDigit
      if ip.isEmpty && fp.isEmpty then none
      else some (((digitsVal ip : ℚ) * 10 ^ fp.length + (digitsVal fp : ℚ))
                   / 10 ^ fp.length, r3)
  | _ => if ip.isEmpty then none else some ((digitsVal ip : ℚ), r1)

/-- Parse an optional exponent part (`e`/`E`, optional sign, digits) and
apply it to the mantissa. -/
def applyExp (v : ℚ) : List Char → Option (ℚ × List Char)
  | [] => some (v, [])
  | c :: r =>
    if c == 'e' || c == 'E' then
      let p : (Int × List Char) :=
        match r with
        | '+' :: rr => (1, rr)
        | '-' :: rr => (-1, rr)
        | _ => (1, r)
      let ds := p.2.takeWhile Char.isDigit
      let r2 := p.2.dropWhile Char.isDigit
      if ds.isEmpty then none
      else some (v * (10 : ℚ) ^ (p.1 * (digitsVal ds : Int)), r2)
    else some (v, c :: r)

/-- `float(s)` on a string: optional surrounding whitespace, optional sign,
decimal mantissa, optional exponent.  (The special spellings `inf`/`nan`
and digit underscores play no role in this program and are not modelled.)
`none` means the coercion raises `ValueError`. -/
def pyFloatStr (s : String) : Option ℚ :=
  let cs := s.data.dropWhile Char.isWhitespace
  let p : (ℚ × List Char) :=
    match cs with
    | '+' :: r => (1, r)
    | '-' :: r => (-1, r)
    | _ => (1, cs)
  match parseDec p.2 with
  | none => none
  | some (v, rest) =>
    match applyExp v rest with
    | none => none
    | some (v2, rest2) =>
      if (rest2.dropWhile Char.isWhitespace).isEmpty then some (p.1 * v2)
      else none

/-- `float(x)` on a JSON value.  `none` covers both the `ValueError` of a
non-numeric string and the `TypeError` of a list, mapping or `None` — all
of which the engine catches in its `except (ValueError, TypeError)`. -/
def pyFloat : JVal → Option ℚ
  | .num q => some q
  | .bool b => some (if b then 1 else 0)
  | .str s => pyFloatStr s
  | _ => none

/-- `price * quantity` where `price` is a Python float and `quantity` is an
arbitrary JSON value: defined for numbers and booleans, `TypeError`
otherwise (caught by the engine). -/
def pyMul (price : ℚ) : JVal → Except PyErr ℚ
  | .num q => .ok (price * q)
  | .bool b => .ok (price * (if b then 1 else 0))
  | _ => .error .typeError

/-- The keys of a JSON object in Python dict iteration order: first
occurrence order, deduplicated. -/
def objKeys : List (String × JVal) → List String
  | [] => []
  | (k, _) :: rest => k :: (objKeys rest).filter (fun x => x != k)

/-- `for item in v`: lists iterate their elements, strings their
characters, dicts their keys; numbers, booleans and `None` raise
`TypeError`. -/
def pyIter : JVal → Except PyErr (List JVal)
  | .arr xs => .ok xs
  | .str s => .ok (s.data.map (fun c => .str (String.singleton c)))
  | .obj kvs => .ok ((objKeys kvs).map .str)
  | _ => .error .typeError

/-- `item.get('product')` (default `None`). -/
def itemProduct (itemObj : List (String × JVal)) : JVal :=
  (dictGet itemObj "product").getD .null

/-- `item.get('quantity', 0)`. -/
def itemQuantity (itemObj : List (String × JVal)) : JVal :=
  (dictGet itemObj "quantity").getD (.num 0)

/-- `str(sale.get('id', 'Unknown'))` as rendered into an error message. -/
def saleIdStr (saleObj : List (String × JVal)) : String :=
  pyStr ((dictGet saleObj "id").getD (.str "Unknown"))

/-- Message for a missing or falsy product or quantity. -/
def invalidItemMsg (sid : String) : String :=
  "Invalid item in sale " ++ sid ++ ": Missing product name or quantity"

/-- Message for a product absent from the catalogue. -/
def notFoundMsg (p : String) : String :=
  "Product " ++ qc ++ p ++ qc ++ " not found in price catalogue"

/-- Message for a catalogue price that fails float coercion (or a
multiplication that raises, which the same handler catches). -/
def invalidPriceMsg (p : String) : String :=
  "Invalid price for product " ++ qc ++ p ++ qc ++ " in price catalogue"

/-- The body of the `for item in sale.get('items', [])` loop of
`compute_sale_cost`, acting on the running `(total_cost, errors)` pair.
The branches follow the source line by line: the truthiness guard, the
membership test (whose hashing raises `TypeError` on a list or dict
product), and the `try` block around `float` and the multiplication. -/
def itemStep (saleObj cat : List (String × JVal)) (acc : ℚ × List String)
    (item : JVal) : Except PyErr (ℚ × List String) :=
  match item with
  | .obj itemObj =>
    if !truthy (itemProduct itemObj) || !truthy (itemQuantity itemObj) then
      .ok (acc.1, acc.2 ++ [invalidItemMsg (saleIdStr saleObj)])
    else
      match itemProduct itemObj with
      | .arr _ => .error .typeError
      | .obj _ => .error .typeError
      | .str s =>
        match dictGet cat s with
        | none => .ok (acc.1, acc.2 ++ [notFoundMsg s])
        | some pv =>
          match pyFloat pv with
          | none => .ok (acc.1, acc.2 ++ [invalidPriceMsg s])
          | some price =>
            match pyMul price (itemQuantity itemObj) with
            | .ok v => .ok (acc.1 + v, acc.2)
            | .error _ => .ok (acc.1, acc.2 ++ [invalidPriceMsg s])
      | other => .ok (acc.1, acc.2 ++ [notFoundMsg (pyStr other)])
  | _ => .error .attributeError

/-- The item loop itself: runs `itemStep` over the items in order, stopping
only if an uncaught exception is raised. -/
def foldItems (saleObj cat : List (String × JVal)) :
    List JVal → (ℚ × List String) → Except PyErr (ℚ × List String)
  | [], acc => .ok acc
  | item :: rest, acc =>
    match itemStep saleObj cat acc item with
    | .error e => .error e
    | .ok acc2 => foldItems saleObj cat rest acc2

/-- `compute_sale_cost(sale, price_catalogue)`.  A non-dict sale raises
`AttributeError` at `sale.get`; a non-iterable `items` value raises
`TypeError` at the `for`. -/
def compute_sale_cost (sale : JVal) (price_catalogue : List (String × JVal)) :
    Except PyErr (ℚ × List String) :=
  match sale with
  | .obj saleObj =>
    match pyIter ((dictGet saleObj "items").getD (.arr [])) with
    | .error e => .error e
    | .ok items => foldItems saleObj price_catalogue items (0, [])
  | _ => .error .attributeError

/-- The aggregation loop of `main`: `total_cost += sale_cost;
all_errors.extend(errors)` over the sales in order. -/
def aggregateSales (sales : List JVal)
    (price_catalogue : List (String × JVal)) :
    Except PyErr (ℚ × List String) :=
  aggAux sales price_catalogue (0, [])
where
  aggAux : List JVal → List (String × JVal) → (ℚ × List String) →
      Except PyErr (ℚ × List String)
    | [], _, acc => .ok acc
    | sale :: rest, cat, acc =>
      match compute_sale_cost sale cat with
      | .error e => .error e
      | .ok ce => aggAux rest cat (acc.1 + ce.1, acc.2 ++ ce.2)

/-- `isinstance(sales_record, list)`. -/
def isList : JVal → Bool
  | .arr _ => true
  | _ => false

/-- Decimal digit characters of a natural number (most significant first),
with explicit fuel so that the kernel can evaluate it. -/
def natDigitCharsAux : Nat → Nat → List Char
  | 0, _ => []
  | fuel + 1, n =>
    if n < 10 then [Char.ofNat (48 + n)]
    else natDigitCharsAux fuel (n / 10) ++ [Char.ofNat (48 + n % 10)]

/-- Decimal digit characters of a natural number. -/
def natDigitChars (n : Nat) : List Char := natDigitCharsAux (n + 1) n

/-- Exactly `n` decimal digit characters of `r`, zero padded on the left
(the low `n` digits of `r`). -/
def padDigitChars : Nat → Nat → List Char
  | 0, _ => []
  | n + 1, r => padDigitChars n (r / 10) ++ [Char.ofNat (48 + r % 10)]

/-- Round a rational to the nearest integer, ties to even — the rounding
used by fixed-point formatting of a float. -/
def roundHalfEven (x : ℚ) : ℤ :=
  let f : ℤ := Int.fdiv x.num x.den
  let frac : ℚ := x - f
  if frac < 1 / 2 then f
  else if 1 / 2 < frac then f + 1
  else if f % 2 = 0 then f else f + 1

/-- The value of `q` scaled to `n` decimal places and rounded. -/
def scaledFixed (q : ℚ) (n : Nat) : ℤ := roundHalfEven (q * (10 : ℚ) ^ n)

/-- Integer part (with sign) of the fixed-point rendering of `q`. -/
def fixedIntPart (q : ℚ) (n : Nat) : String :=
  (if scaledFixed q n < 0 then "-" else "") ++
    String.mk (natDigitChars ((scaledFixed q n).natAbs / 10 ^ n))

/-- The `n` fractional digits of the fixed-point rendering of `q`. -/
def fixedFracPart (q : ℚ) (n : Nat) : String :=
  String.mk (padDigitChars n ((scaledFixed q n).natAbs % 10 ^ n))

/-- Fixed-point rendering of a number with `n` decimal places, as the
format specifications `:.2f` and `:.3f` produce (exact over the rationals,
rounding half to even). -/
def formatFixed (q : ℚ) (n : Nat) : String :=
  fixedIntPart q n ++ "." ++ fixedFracPart q n

/-- The list `results` built by `write_results`. -/
def resultsLines (total_cost execution_time : ℚ) (errors : List String) :
    List String :=
  if errors.isEmpty then
    ["=== Sales Computation Results ===",
     "Total Cost: $" ++ formatFixed total_cost 2,
     "Execution Time: " ++ formatFixed execution_time 3 ++ " seconds",
     "\nNo errors encountered during execution."]
  else
    ["=== Sales Computation Results ===",
     "Total Cost: $" ++ formatFixed total_cost 2,
     "Execution Time: " ++ formatFixed execution_time 3 ++ " seconds",
     "\nErrors encountered during execution:"] ++ errors

/-- `write_results`: the pair (text printed to standard output, text
written to `SalesResults.txt`).  Both destinations receive the same
newline join of `results`; `print` terminates its output with one further
newline. -/
def write_results (total_cost execution_time : ℚ) (errors : List String) :
    String × String :=
  (String.intercalate "\n" (resultsLines total_cost execution_time errors)
     ++ "\n",
   String.intercalate "\n" (resultsLines total_cost execution_time errors))

/-- Observable outcome of `main` after the two documents have been loaded:
a fatal diagnostic with exit status 1, an uncaught exception, or a
completed run with its standard output and report file. -/
inductive Outcome where
  | fatal (diagnostic : String)
  | crash (e : PyErr)
  | finished (stdout fileContent : String)

/-- The part of `main` after loading: the shape check on the sales record,
the aggregation loop, and `write_results`.  The elapsed wall-clock time is
a parameter. -/
def mainOutcome (price_catalogue : List (String × JVal))
    (sales_record : JVal) (execution_time : ℚ) : Outcome :=
  match sales_record with
  | .arr sales =>
    match aggregateSales sales price_catalogue with
    | .error e => .crash e
    | .ok (total_cost, all_errors) =>
      .finished (write_results total_cost execution_time all_errors).1
        (write_results total_cost execution_time all_errors).2
  | _ => .fatal "Error: Sales record must be a list of sales"

/-- Process exit status of an outcome (an uncaught traceback also exits
with status 1). -/
def exitCode : Outcome → Nat
  | .fatal _ => 1
  | .crash _ => 1
  | .finished _ _ => 0

/-- Content of `SalesResults.txt` after the run, when it was written. -/
def reportFile : Outcome → Option String
  | .finished _ f => some f
  | _ => none

/-! ### Specification-side helper definitions -/

/-- Concatenation of a list of lists, in order. -/
def concatAll {α : Type} : List (List α) → List α
  | [] => []
  | l :: ls => l ++ concatAll ls

/-- The `(contribution, errors)` a single line item produces, read off the
branches of the loop body.  Meaningful for safe items (see `safeItem`). -/
def itemResult (saleObj cat : List (String × JVal)) (item : JVal) :
    ℚ × List String :=
  match item with
  | .obj itemObj =>
    if !truthy (itemProduct itemObj) || !truthy (itemQuantity itemObj) then
      (0, [invalidItemMsg (saleIdStr saleObj)])
    else
      match itemProduct itemObj with
      | .arr _ => (0, [])
      | .obj _ => (0, [])
      | .str s =>
        match dictGet cat s with
        | none => (0, [notFoundMsg s])
        | some pv =>
          match pyFloat pv with
          | none => (0, [invalidPriceMsg s])
          | some price =>
            match pyMul price (itemQuantity itemObj) with
            | .ok v => (v, [])
            | .error _ => (0, [invalidPriceMsg s])
      | other => (0, [notFoundMsg (pyStr other)])
  | _ => (0, [])

/-- A line item on which the loop body cannot raise: a mapping whose
product value is not itself a list or mapping (an unhashable product would
raise `TypeError` inside the membership test). -/
def safeItem : JVal → Bool
  | .obj itemObj =>
    match itemProduct itemObj with
    | .arr _ => false
    | .obj _ => false
    | _ => true
  | _ => false

/-- A sale on which `compute_sale_cost` cannot raise: a mapping whose
`items` value (empty list when absent) is a list of safe items. -/
def safeSale : JVal → Bool
  | .obj saleObj =>
    match (dictGet saleObj "items").getD (.arr []) with
    | .arr items => items.all safeItem
    | _ => false
  | _ => false

/-- The item list of a well-formed sale. -/
def saleItems : JVal → List JVal
  | .obj saleObj =>
    match (dictGet saleObj "items").getD (.arr []) with
    | .arr items => items
    | _ => []
  | _ => []

/-- The underlying key/value list of a sale mapping. -/
def saleObjOf : JVal → List (String × JVal)
  | .obj saleObj => saleObj
  | _ => []

/-- A sale that is a mapping with a list of items. -/
def wellFormedSale : JVal → Bool
  | .obj saleObj =>
    match (dictGet saleObj "items").getD (.arr []) with
    | .arr _ => true
    | _ => false
  | _ => false

/-- A fully valid line item in the sense of the specification: a mapping
with a non-empty string product that is a key of the catalogue, a price
entry that coerces to float, and a nonzero numeric quantity. -/
def validItem (cat : List (String × JVal)) : JVal → Bool
  | .obj itemObj =>
    (match itemProduct itemObj with
     | .str s =>
       !(s == "") &&
         (match dictGet cat s with
          | some pv => (pyFloat pv).isSome
          | none => false)
     | _ => false) &&
    (match itemQuantity itemObj with
     | .num q => !(q == 0)
     | _ => false)
  | _ => false

/-- `price(product) × quantity` for a valid line item (0 on any other). -/
def itemValue (cat : List (String × JVal)) : JVal → ℚ
  | .obj itemObj =>
    (match itemProduct itemObj, itemQuantity itemObj with
     | .str s, .num q =>
       (match dictGet cat s with
        | some pv =>
          (match pyFloat pv with
           | some price => price * q
           | none => 0)
        | none => 0)
     | _, _ => 0)
  | _ => 0

/-- A sale all of whose line items are valid. -/
def validSale (cat : List (String × JVal)) (sale : JVal) : Bool :=
  wellFormedSale sale && (saleItems sale).all (validItem cat)

/-- A quantity value that multiplies with a float without raising:
a number or a boolean. -/
def numericQty : JVal → Bool
  | .num _ => true
  | .bool _ => true
  | _ => false

/-- The numeric value of a numeric quantity. -/
def qtyVal : JVal → ℚ
  | .num q => q
  | .bool b => if b then 1 else 0
  | _ => 0

/-! ### Core lemmas -/

lemma pyMul_numeric (price : ℚ) (v : JVal) (h : numericQty v = true) :
    pyMul price v = .ok (price * qtyVal v) := by
  cases v <;> simp_all [numericQty, pyMul, qtyVal]

lemma pyMul_not_numeric (price : ℚ) (v : JVal) (h : numericQty v = false) :
    pyMul price v = .error .typeError := by
  cases v <;> simp_all [numericQty, pyMul]

/-- On a safe item the loop body returns normally and acts on the running
pair exactly by that item's own `itemResult`. -/
lemma itemStep_safe (saleObj cat : List (String × JVal))
    (acc : ℚ × List String) (item : JVal) (h : safeItem item = true) :
    itemStep saleObj cat acc item =
      .ok (acc.1 + (itemResult saleObj cat item).1,
           acc.2 ++ (itemResult saleObj cat item).2) := by
  cases item with
  | obj itemObj =>
    simp only [itemStep, itemResult]
    by_cases hq :
        (!truthy (itemProduct itemObj) || !truthy (itemQuantity itemObj))
          = true
    · rw [if_pos hq, if_pos hq]; simp
    · rw [if_neg hq, if_neg hq]
      cases hp : itemProduct itemObj with
      | arr xs => simp [safeItem, hp] at h
      | obj kvs => simp [safeItem, hp] at h
      | str s =>
        cases hg : dictGet cat s with
        | none => simp [hg]
        | some pv =>
          cases hf : pyFloat pv with
          | none => simp [hg, hf]
          | some price =>
            cases hm : pyMul price (itemQuantity itemObj) with
            | ok v => simp [hg, hf, hm]
            | error e => simp [hg, hf, hm]
      | null => simp
      | bool b => simp
      | num q => simp
  | null => simp [safeItem] at h
  | bool b => simp [safeItem] at h
  | num q => simp [safeItem] at h
  | str s => simp [safeItem] at h
  | arr xs => simp [safeItem] at h

/-- The item loop over safe items returns normally, summing the item
contributions and concatenating the item error lists in order. -/
lemma foldItems_safe (saleObj cat : List (String × JVal)) :
    ∀ (items : List JVal) (acc : ℚ × List String),
      items.all safeItem = true →
      foldItems saleObj cat items acc =
        .ok (acc.1 + (items.map
               (fun it => (itemResult saleObj cat it).1)).sum,
             acc.2 ++ concatAll (items.map
               (fun it => (itemResult saleObj cat it).2)))
  | [], acc, _ => by simp [foldItems, concatAll]
  | item :: rest, acc, h => by
    have h1 : safeItem item = true := by
      simp only [List.all_cons, Bool.and_eq_true] at h; exact h.1
    have h2 : rest.all safeItem = true := by
      simp only [List.all_cons, Bool.and_eq_true] at h; exact h.2
    simp only [foldItems, itemStep_safe saleObj cat acc item h1]
    rw [foldItems_safe saleObj cat rest _ h2]
    simp [add_assoc, concatAll, List.append_assoc]

/-- `compute_sale_cost` on a safe sale: per-item decomposition. -/
lemma compute_sale_cost_safe (sale : JVal) (cat : List (String × JVal))
    (h : safeSale sale = true) :
    compute_sale_cost sale cat =
      .ok (((saleItems sale).map
             (fun it => (itemResult (saleObjOf sale) cat it).1)).sum,
           concatAll ((saleItems sale).map
             (fun it => (itemResult (saleObjOf sale) cat it).2))) := by
  cases sale with
  | obj saleObj =>
    simp only [compute_sale_cost, saleItems, saleObjOf]
    cases hi : (dictGet saleObj "items").getD (.arr []) with
    | arr items =>
      have hall : items.all safeItem = true := by
        simp only [safeSale, hi] at h; exact h
      simp only [pyIter]
      rw [foldItems_safe saleObj cat items (0, []) hall]
      simp
    | null => simp [safeSale, hi] at h
    | bool b => simp [safeSale, hi] at h
    | num q => simp [safeSale, hi] at h
    | str s => simp [safeSale, hi] at h
    | obj kvs => simp [safeSale, hi] at h
  | null => simp [safeSale] at h
  | bool b => simp [safeSale] at h
  | num q => simp [safeSale] at h
  | str s => simp [safeSale] at h
  | arr xs => simp [safeSale] at h

/-- Per-sale totals and error lists produced by a safe sale. -/
def saleTotalOf (cat : List (String × JVal)) (sale : JVal) : ℚ :=
  ((saleItems sale).map (fun it => (itemResult (saleObjOf sale) cat it).1)).sum

def saleErrorsOf (cat : List (String × JVal)) (sale : JVal) : List String :=
  concatAll ((saleItems sale).map
    (fun it => (itemResult (saleObjOf sale) cat it).2))

/-- The aggregation loop over safe sales: per-sale decomposition. -/
lemma aggAux_safe (cat : List (String × JVal)) :
    ∀ (sales : List JVal) (acc : ℚ × List String),
      sales.all safeSale = true →
      aggregateSales.aggAux sales cat acc =
        .ok (acc.1 + (sales.map (saleTotalOf cat)).sum,
             acc.2 ++ concatAll (sales.map (saleErrorsOf cat)))
  | [], acc, _ => by simp [aggregateSales.aggAux, concatAll]
  | sale :: rest, acc, h => by
    have h1 : safeSale sale = true := by
      simp only [List.all_cons, Bool.and_eq_true] at h; exact h.1
    have h2 : rest.all safeSale = true := by
      simp only [List.all_cons, Bool.and_eq_true] at h; exact h.2
    simp only [aggregateSales.aggAux, compute_sale_cost_safe sale cat h1]
    rw [aggAux_safe cat rest _ h2]
    simp [saleTotalOf, saleErrorsOf, add_assoc, concatAll, List.append_assoc]

lemma aggregateSales_safe (sales : List JVal) (cat : List (String × JVal))
    (h : sales.all safeSale = true) :
    aggregateSales sales cat =
      .ok ((sales.map (saleTotalOf cat)).sum,
           concatAll (sales.map (saleErrorsOf cat))) := by
  unfold aggregateSales
  rw [aggAux_safe cat sales (0, []) h]
  simp

/-- A valid item is safe. -/
lemma validItem_safe (cat : List (String × JVal)) (item : JVal)
    (h : validItem cat item = true) : safeItem item = true := by
  cases item with
  | obj itemObj =>
    simp only [validItem, Bool.and_eq_true] at h
    cases hp : itemProduct itemObj <;>
      simp_all [safeItem]
  | null => simp [validItem] at h
  | bool b => simp [validItem] at h
  | num q => simp [validItem] at h
  | str s => simp [validItem] at h
  | arr xs => simp [validItem] at h

/-- On a valid item the loop body contributes `price × quantity` and
records no error. -/
lemma itemResult_valid (saleObj cat : List (String × JVal)) (item : JVal)
    (h : validItem cat item = true) :
    itemResult saleObj cat item = (itemValue cat item, []) := by
  cases item with
  | obj itemObj =>
    simp only [validItem, Bool.and_eq_true] at h
    obtain ⟨hp, hq⟩ := h
    cases hpp : itemProduct itemObj with
    | str s =>
      rw [hpp] at hp
      simp only [Bool.and_eq_true] at hp
      obtain ⟨hs, hk⟩ := hp
      cases hqq : itemQuantity itemObj with
      | num q =>
        rw [hqq] at hq
        have hs2 : truthy (.str s) = true := by
          simpa [truthy] using hs
        have hq2 : truthy (.num q) = true := by
          simpa [truthy] using hq
        cases hg : dictGet cat s with
        | none => rw [hg] at hk; simp at hk
        | some pv =>
          rw [hg] at hk
          cases hf : pyFloat pv with
          | none => simp [hf] at hk
          | some price =>
            simp only [itemResult, hpp, hqq, hs2, hq2, Bool.not_true,
              Bool.or_self, Bool.false_eq_true, if_false, hg, hf, pyMul,
              itemValue]
      | null => rw [hqq] at hq; simp at hq
      | bool b => rw [hqq] at hq; simp at hq
      | str s2 => rw [hqq] at hq; simp at hq
      | arr xs => rw [hqq] at hq; simp at hq
      | obj kvs => rw [hqq] at hq; simp at hq
    | null => rw [hpp] at hp; simp at hp
    | bool b => rw [hpp] at hp; simp at hp
    | num q => rw [hpp] at hp; simp at hp
    | arr xs => rw [hpp] at hp; simp at hp
    | obj kvs => rw [hpp] at hp; simp at hp
  | null => simp [validItem] at h
  | bool b => simp [validItem] at h
  | num q => simp [validItem] at h
  | str s => simp [validItem] at h
  | arr xs => simp [validItem] at h

/-- Each `padDigitChars n r` has exactly `n` characters. -/
lemma padDigitChars_length : ∀ (n r : Nat), (padDigitChars n r).length = n
  | 0, _ => rfl
  | n + 1, r => by
    simp [padDigitChars, padDigitChars_length n]

/-- A valid sale is safe. -/
lemma validSale_safe (cat : List (String × JVal)) (sale : JVal)
    (h : validSale cat sale = true) : safeSale sale = true := by
  unfold validSale at h
  rw [Bool.and_eq_true] at h
  obtain ⟨hwf, hall⟩ := h
  cases sale with
  | obj saleObj =>
    cases hi : (dictGet saleObj "items").getD (.arr []) with
    | arr items =>
      simp only [safeSale, hi]
      simp only [saleItems, hi] at hall
      rw [List.all_eq_true] at hall ⊢
      exact fun it hit => validItem_safe cat it (hall it hit)
    | null => simp [wellFormedSale, hi] at hwf
    | bool b => simp [wellFormedSale, hi] at hwf
    | num q => simp [wellFormedSale, hi] at hwf
    | str s => simp [wellFormedSale, hi] at hwf
    | obj kvs => simp [wellFormedSale, hi] at hwf
  | null => simp [wellFormedSale] at hwf
  | bool b => simp [wellFormedSale] at hwf
  | num q => simp [wellFormedSale] at hwf
  | str s => simp [wellFormedSale] at hwf
  | arr xs => simp [wellFormedSale] at hwf

/-- Concatenating a list of empty lists gives the empty list. -/
lemma concatAll_eq_nil {α : Type} :
    ∀ ls : List (List α), (∀ l ∈ ls, l = []) → concatAll ls = []
  | [], _ => rfl
  | l :: ls, h => by
    rw [concatAll, h l (by simp),
      concatAll_eq_nil ls (fun x hx => h x (by simp [hx]))]
    rfl

/-! ### Claim theorems -/

/-- Claim C1: for every price catalogue and every list of sales containing
no invalid items (each line item has a non-empty product present in the
catalogue, a nonzero numeric quantity, and a float-coercible catalogue
price), the aggregation loop returns the sum over all sales and items of
price(product) times quantity, and an empty error list. -/
theorem claim_C1_valid_total (cat : List (String × JVal)) (sales : List JVal)
    (h : sales.all (validSale cat) = true) :
    aggregateSales sales cat =
      .ok ((sales.map
             (fun sa => ((saleItems sa).map (itemValue cat)).sum)).sum,
           []) := by
  rw [List.all_eq_true] at h
  have hsafe : sales.all safeSale = true := by
    rw [List.all_eq_true]
    exact fun sa hsa => validSale_safe cat sa (h sa hsa)
  rw [aggregateSales_safe sales cat hsafe]
  have hitems : ∀ sa ∈ sales, ∀ it ∈ saleItems sa,
      validItem cat it = true := by
    intro sa hsa it hit
    have hv := h sa hsa
    unfold validSale at hv
    rw [Bool.and_eq_true, List.all_eq_true] at hv
    exact hv.2 it hit
  have h1 : sales.map (saleTotalOf cat) =
      sales.map (fun sa => ((saleItems sa).map (itemValue cat)).sum) := by
    apply List.map_congr_left
    intro sa hsa
    unfold saleTotalOf
    congr 1
    apply List.map_congr_left
    intro it hit
    rw [itemResult_valid (saleObjOf sa) cat it (hitems sa hsa it hit)]
  have h2 : concatAll (sales.map (saleErrorsOf cat)) = [] := by
    apply concatAll_eq_nil
    intro l hl
    rw [List.mem_map] at hl
    obtain ⟨sa, hsa, rfl⟩ := hl
    unfold saleErrorsOf
    apply concatAll_eq_nil
    intro l2 hl2
    rw [List.mem_map] at hl2
    obtain ⟨it, hit, rfl⟩ := hl2
    rw [itemResult_valid (saleObjOf sa) cat it (hitems sa hsa it hit)]
  rw [h1, h2]

/-- Claim C2, counterexample: a sale whose `items` value is a number makes
the `for` statement of `compute_sale_cost` raise `TypeError` past the
function boundary, so the engine does not return a (total, errors) pair for
every sale value. -/
theorem claim_C2_counterexample :
    compute_sale_cost (JVal.obj [("items", JVal.num 5)]) [] =
      .error .typeError := rfl

/-- Claim C2, amended: for every sale that is a mapping whose `items` value
(empty when absent) is a list of mappings none of whose product values is
itself a list or mapping, `compute_sale_cost` returns normally, and each
item contributes its own value and its own advisory errors independently of
every other item: the result is the sum of the per-item contributions
paired with the in-order concatenation of the per-item error lists. -/
theorem claim_C2_total_errors_pair (sale : JVal)
    (cat : List (String × JVal)) (h : safeSale sale = true) :
    compute_sale_cost sale cat =
      .ok (((saleItems sale).map
             (fun it => (itemResult (saleObjOf sale) cat it).1)).sum,
           concatAll ((saleItems sale).map
             (fun it => (itemResult (saleObjOf sale) cat it).2))) :=
  compute_sale_cost_safe sale cat h

/-- Claim C3, counterexample: the product is a non-empty key of the
catalogue, its price coerces to float, and the quantity is truthy — yet the
engine records the invalid-price error, because the multiplication
`price * quantity` with a string quantity raises `TypeError` inside the
same `try` block.  The error is therefore not equivalent to a failing price
coercion. -/
theorem claim_C3_counterexample :
    (pyFloat (JVal.num (3 / 2))).isSome = true ∧
    compute_sale_cost
        (JVal.obj [("items", JVal.arr
          [JVal.obj [("product", JVal.str "Apple"),
                     ("quantity", JVal.str "two")]])])
        [("Apple", JVal.num (3 / 2))] =
      .ok (0, [invalidPriceMsg "Apple"]) :=
  ⟨rfl, rfl⟩

/-- Claim C3, amended: for a line item whose product is a non-empty key of
the catalogue and whose quantity is truthy, the invalid-price error is
recorded (with no contribution) exactly when the price entry fails float
coercion or the quantity is not numeric (so the multiplication raises
`TypeError`, caught by the same handler); when the price coerces and the
quantity is numeric, `price * quantity` is added to the running total and
no error is recorded. -/
theorem claim_C3_invalid_price_iff (saleObj cat : List (String × JVal))
    (acc : ℚ × List String) (itemObj : List (String × JVal)) (s : String)
    (pv : JVal)
    (hprod : itemProduct itemObj = JVal.str s) (hs : s ≠ "")
    (hkey : dictGet cat s = some pv)
    (hq : truthy (itemQuantity itemObj) = true) :
    (itemStep saleObj cat acc (JVal.obj itemObj) =
        .ok (acc.1, acc.2 ++ [invalidPriceMsg s]) ↔
      (pyFloat pv = none ∨ numericQty (itemQuantity itemObj) = false)) ∧
    (∀ price : ℚ, pyFloat pv = some price →
      numericQty (itemQuantity itemObj) = true →
      itemStep saleObj cat acc (JVal.obj itemObj) =
        .ok (acc.1 + price * qtyVal (itemQuantity itemObj), acc.2)) := by
  have hts : truthy (JVal.str s) = true := by
    simpa [truthy] using hs
  refine ⟨?_, ?_⟩
  · cases hf : pyFloat pv with
    | none => simp [itemStep, hprod, hq, hts, hkey, hf]
    | some price =>
      cases hn : numericQty (itemQuantity itemObj) with
      | true =>
        have hmul := pyMul_numeric price (itemQuantity itemObj) hn
        simp [itemStep, hprod, hq, hts, hkey, hf, hmul, hn]
      | false =>
        have hmul := pyMul_not_numeric price (itemQuantity itemObj) hn
        simp [itemStep, hprod, hq, hts, hkey, hf, hmul, hn]
  · intro price hp hn
    have hmul := pyMul_numeric price (itemQuantity itemObj) hn
    simp [itemStep, hprod, hq, hts, hkey, hp, hmul]

/-- Claim C4: a line item whose product is absent (hence `None`) or the
empty string, or whose quantity is falsy (absent quantities default to 0),
makes the loop body record exactly one invalid-item error naming the sale
id — with the placeholder Unknown when the sale has no id — add nothing to
the total, and return normally so that the loop continues with the next
item. -/
theorem claim_C4_invalid_item (saleObj cat : List (String × JVal))
    (acc : ℚ × List String) (itemObj : List (String × JVal))
    (h : itemProduct itemObj = JVal.null ∨ itemProduct itemObj = JVal.str ""
         ∨ truthy (itemQuantity itemObj) = false) :
    itemStep saleObj cat acc (JVal.obj itemObj) =
      .ok (acc.1, acc.2 ++ [invalidItemMsg (saleIdStr saleObj)]) ∧
    (dictGet saleObj "id" = none → saleIdStr saleObj = "Unknown") := by
  constructor
  · have hcond : (!truthy (itemProduct itemObj)
        || !truthy (itemQuantity itemObj)) = true := by
      rcases h with h | h | h
      · rw [h]; simp [truthy]
      · rw [h]; simp [truthy]
      · rw [h]; simp
    simp [itemStep, hcond]
  · intro hid
    simp [saleIdStr, hid, pyStr]

/-- Claim C5: a line item with a non-empty string product and truthy
quantity whose product is not a key of the catalogue makes the loop body
record exactly one product-not-found error, contribute nothing to the
total, and return normally. -/
theorem claim_C5_product_not_found (saleObj cat : List (String × JVal))
    (acc : ℚ × List String) (itemObj : List (String × JVal)) (s : String)
    (hprod : itemProduct itemObj = JVal.str s) (hs : s ≠ "")
    (hq : truthy (itemQuantity itemObj) = true)
    (hkey : dictGet cat s = none) :
    itemStep saleObj cat acc (JVal.obj itemObj) =
      .ok (acc.1, acc.2 ++ [notFoundMsg s]) := by
  have hts : truthy (JVal.str s) = true := by
    simpa [truthy] using hs
  simp [itemStep, hprod, hq, hts, hkey]

/-- Claim C6: whenever the aggregation loop completes, the flat error list
it returns is the concatenation, over the sales in document order, of the
concatenation, over each sale's line items in order, of that item's own
error list — so errors are grouped by sale in document order, within a sale
in line-item order, with no reordering and no deduplication. -/
theorem claim_C6_error_order (cat : List (String × JVal)) (sales : List JVal)
    (h : sales.all safeSale = true) :
    ∃ total : ℚ, aggregateSales sales cat =
      .ok (total,
        concatAll (sales.map (fun sa =>
          concatAll ((saleItems sa).map (fun it =>
            (itemResult (saleObjOf sa) cat it).2))))) :=
  ⟨(sales.map (saleTotalOf cat)).sum, aggregateSales_safe sales cat h⟩

/-- Claim C7: when the parsed sales record is not a list, the run fails
with the fixed diagnostic and exit status 1 before any costing, and no
report file is produced. -/
theorem claim_C7_not_list_fatal (price_catalogue : List (String × JVal))
    (v : JVal) (elapsed : ℚ) (h : isList v = false) :
    mainOutcome price_catalogue v elapsed =
      .fatal "Error: Sales record must be a list of sales" ∧
    exitCode (mainOutcome price_catalogue v elapsed) = 1 ∧
    reportFile (mainOutcome price_catalogue v elapsed) = none := by
  cases v <;> simp_all [isList, mainOutcome, exitCode, reportFile]

/-- Claim C8: the report consists of the header line, the total line with
two decimal places, the execution-time line with three decimal places, and
then either a blank-line-prefixed error header followed by each error in
accumulated order on its own line, or a blank-line-prefixed no-errors line;
the file receives exactly the newline join of these lines and standard
output the same join (followed by the terminating newline of `print`). -/
theorem claim_C8_report_content (total execution_time : ℚ)
    (errors : List String) :
    resultsLines total execution_time errors =
      ["=== Sales Computation Results ===",
       "Total Cost: $" ++ formatFixed total 2,
       "Execution Time: " ++ formatFixed execution_time 3 ++ " seconds"]
      ++ (if errors.isEmpty then
            ["\nNo errors encountered during execution."]
          else
            "\nErrors encountered during execution:" :: errors) ∧
    formatFixed total 2 =
      fixedIntPart total 2 ++ "." ++ fixedFracPart total 2 ∧
    (fixedFracPart total 2).length = 2 ∧
    (fixedFracPart execution_time 3).length = 3 ∧
    (write_results total execution_time errors).2 =
      String.intercalate "\n" (resultsLines total execution_time errors) ∧
    (write_results total execution_time errors).1 =
      String.intercalate "\n" (resultsLines total execution_time errors)
        ++ "\n" := by
  refine ⟨?_, rfl, ?_, ?_, rfl, rfl⟩
  · cases he : errors.isEmpty with
    | true => simp [resultsLines, he]
    | false => simp [resultsLines, he]
  · rw [fixedFracPart, String.length_mk, padDigitChars_length]
  · rw [fixedFracPart, String.length_mk, padDigitChars_length]

/-- Claim C10: a line item with a valid catalogue product, a coercible
price and a negative numeric quantity is accepted without any error: the
loop body adds `price * quantity` to the running total (a negative amount
whenever the price is positive), so the grand total can go negative — only
falsy quantities are rejected, not negative ones. -/
theorem claim_C10_negative_quantity (saleObj cat : List (String × JVal))
    (acc : ℚ × List String) (itemObj : List (String × JVal)) (s : String)
    (pv : JVal) (price q : ℚ)
    (hprod : itemProduct itemObj = JVal.str s) (hs : s ≠ "")
    (hkey : dictGet cat s = some pv) (hpf : pyFloat pv = some price)
    (hq : itemQuantity itemObj = JVal.num q) (hneg : q < 0) :
    itemStep saleObj cat acc (JVal.obj itemObj) =
      .ok (acc.1 + price * q, acc.2) ∧
    (0 < price → price * q < 0) := by
  have hts : truthy (JVal.str s) = true := by
    simpa [truthy] using hs
  have htq : truthy (JVal.num q) = true := by
    simp [truthy]
    exact ne_of_lt hneg
  constructor
  · simp [itemStep, hprod, hq, hts, htq, hkey, hpf, pyMul]
  · intro hp
    exact mul_neg_of_pos_of_neg hp hneg

/-! ### Witnesses -/

/-- Witness for C1: catalogue Apple at 3/2 and Bread at 3; one sale with
items (Apple, 4) and (Bread, 1) gives total 9 and no errors. -/
theorem claim_C1_witness :
    ([JVal.obj [("id", JVal.str "S1"),
        ("items", JVal.arr
          [JVal.obj [("product", JVal.str "Apple"), ("quantity", JVal.num 4)],
           JVal.obj [("product", JVal.str "Bread"),
                     ("quantity", JVal.num 1)]])]].all
      (validSale [("Apple", JVal.num (3 / 2)), ("Bread", JVal.num 3)])
        = true) ∧
    aggregateSales
      [JVal.obj [("id", JVal.str "S1"),
        ("items", JVal.arr
          [JVal.obj [("product", JVal.str "Apple"), ("quantity", JVal.num 4)],
           JVal.obj [("product", JVal.str "Bread"),
                     ("quantity", JVal.num 1)]])]]
      [("Apple", JVal.num (3 / 2)), ("Bread", JVal.num 3)] =
      .ok ((9 : ℚ), []) := by
  refine ⟨by decide, ?_⟩
  rw [claim_C1_valid_total _ _ (by decide)]
  show Except.ok ((3 / 2 : ℚ) * 4 + (3 * 1 + 0) + 0, ([] : List String)) = _
  have e : (3 / 2 : ℚ) * 4 + (3 * 1 + 0) + 0 = 9 := by norm_num
  rw [e]

/-- Witness for C2: an unknown product in the first item yields an advisory
error while the second item is still processed and contributes 8. -/
theorem claim_C2_witness :
    (safeSale (JVal.obj [("id", JVal.str "S1"),
      ("items", JVal.arr
        [JVal.obj [("product", JVal.str "Milk"), ("quantity", JVal.num 2)],
         JVal.obj [("product", JVal.str "Apple"),
                   ("quantity", JVal.num 4)]])]) = true) ∧
    compute_sale_cost
      (JVal.obj [("id", JVal.str "S1"),
        ("items", JVal.arr
          [JVal.obj [("product", JVal.str "Milk"), ("quantity", JVal.num 2)],
           JVal.obj [("product", JVal.str "Apple"),
                     ("quantity", JVal.num 4)]])])
      [("Apple", JVal.num 2)] =
      .ok ((8 : ℚ), [notFoundMsg "Milk"]) := by
  refine ⟨by decide, ?_⟩
  rw [claim_C2_total_errors_pair _ _ (by decide)]
  show Except.ok ((0 : ℚ) + (2 * 4 + 0), [notFoundMsg "Milk"]) = _
  have e : (0 : ℚ) + (2 * 4 + 0) = 8 := by norm_num
  rw [e]

/-- Witness for C3: with a coercible price 2 and numeric quantity 4 the
loop body adds 2 times 4 and records nothing. -/
theorem claim_C3_witness :
    itemStep [] [("Apple", JVal.num 2)] ((0 : ℚ), [])
        (JVal.obj [("product", JVal.str "Apple"), ("quantity", JVal.num 4)])
      = .ok ((0 : ℚ) + 2 * qtyVal (JVal.num 4), []) :=
  (claim_C3_invalid_price_iff [] [("Apple", JVal.num 2)] ((0 : ℚ), [])
      [("product", JVal.str "Apple"), ("quantity", JVal.num 4)] "Apple"
      (JVal.num 2) rfl (by decide) rfl rfl).2 2 rfl rfl

/-- Witness for C4: an item with a product but no quantity contributes one
invalid-item error with the Unknown placeholder and nothing to the total. -/
theorem claim_C4_witness :
    truthy (itemQuantity [("product", JVal.str "Pen")]) = false ∧
    itemStep [] [] ((0 : ℚ), []) (JVal.obj [("product", JVal.str "Pen")]) =
      .ok ((0 : ℚ), [invalidItemMsg "Unknown"]) :=
  ⟨by decide,
   (claim_C4_invalid_item [] [] ((0 : ℚ), []) [("product", JVal.str "Pen")]
      (Or.inr (Or.inr (by decide)))).1⟩

/-- Witness for C5: an item naming Milk against an empty catalogue yields
exactly the product-not-found error and no contribution. -/
theorem claim_C5_witness :
    dictGet [] "Milk" = none ∧
    itemStep [] [] ((0 : ℚ), [])
        (JVal.obj [("product", JVal.str "Milk"), ("quantity", JVal.num 2)]) =
      .ok ((0 : ℚ), [notFoundMsg "Milk"]) :=
  ⟨rfl,
   claim_C5_product_not_found [] [] ((0 : ℚ), [])
     [("product", JVal.str "Milk"), ("quantity", JVal.num 2)] "Milk"
     rfl (by decide) rfl rfl⟩

/-- Witness for C6: three items that all fail with the identical message
produce three copies of it, grouped by sale in order — no deduplication. -/
theorem claim_C6_witness :
    ([JVal.obj [("id", JVal.str "A"),
        ("items", JVal.arr
          [JVal.obj [("product", JVal.str "Milk"), ("quantity", JVal.num 1)],
           JVal.obj [("product", JVal.str "Milk"),
                     ("quantity", JVal.num 1)]])],
      JVal.obj [("items", JVal.arr
        [JVal.obj [("product", JVal.str "Milk"),
                   ("quantity", JVal.num 1)]])]].all safeSale = true) ∧
    ∃ total : ℚ,
      aggregateSales
        [JVal.obj [("id", JVal.str "A"),
          ("items", JVal.arr
            [JVal.obj [("product", JVal.str "Milk"), ("quantity", JVal.num 1)],
             JVal.obj [("product", JVal.str "Milk"),
                       ("quantity", JVal.num 1)]])],
         JVal.obj [("items", JVal.arr
           [JVal.obj [("product", JVal.str "Milk"),
                      ("quantity", JVal.num 1)]])]] [] =
        .ok (total,
          [notFoundMsg "Milk", notFoundMsg "Milk", notFoundMsg "Milk"]) := by
  refine ⟨by decide, ?_⟩
  obtain ⟨t, ht⟩ := claim_C6_error_order []
    [JVal.obj [("id", JVal.str "A"),
      ("items", JVal.arr
        [JVal.obj [("product", JVal.str "Milk"), ("quantity", JVal.num 1)],
         JVal.obj [("product", JVal.str "Milk"),
                   ("quantity", JVal.num 1)]])],
     JVal.obj [("items", JVal.arr
       [JVal.obj [("product", JVal.str "Milk"),
                  ("quantity", JVal.num 1)]])]] (by decide)
  exact ⟨t, by rw [ht]; rfl⟩

/-- Witness for C7: a mapping in place of the sales list is fatal with exit
status 1 and no report file. -/
theorem claim_C7_witness :
    isList (JVal.obj [("k", JVal.num 1)]) = false ∧
    (mainOutcome [] (JVal.obj [("k", JVal.num 1)]) 0 =
        .fatal "Error: Sales record must be a list of sales" ∧
      exitCode (mainOutcome [] (JVal.obj [("k", JVal.num 1)]) 0) = 1 ∧
      reportFile (mainOutcome [] (JVal.obj [("k", JVal.num 1)]) 0) = none) :=
  ⟨rfl, claim_C7_not_list_fatal [] (JVal.obj [("k", JVal.num 1)]) 0 rfl⟩

/-- Witness for C10: quantity -3 at price 2 is accepted with no error,
contributes -6, and the resulting grand total is negative. -/
theorem claim_C10_witness :
    ((-3 : ℚ) < 0) ∧
    (itemStep [] [("Apple", JVal.num 2)] ((0 : ℚ), [])
        (JVal.obj [("product", JVal.str "Apple"),
                   ("quantity", JVal.num (-3))]) =
        .ok ((0 : ℚ) + 2 * (-3), []) ∧
      ((0 : ℚ) < 2 → (2 : ℚ) * (-3) < 0)) ∧
    (∃ t : ℚ, t < 0 ∧
      aggregateSales
        [JVal.obj [("items", JVal.arr
          [JVal.obj [("product", JVal.str "Apple"),
                     ("quantity", JVal.num (-3))]])]]
        [("Apple", JVal.num 2)] = .ok (t, [])) := by
  refine ⟨by decide,
    claim_C10_negative_quantity [] [("Apple", JVal.num 2)] ((0 : ℚ), [])
      [("product", JVal.str "Apple"), ("quantity", JVal.num (-3))]
      "Apple" (JVal.num 2) 2 (-3) rfl (by decide) rfl rfl rfl (by decide),
    ?_⟩
  refine ⟨(2 : ℚ) * (-3) + 0 + 0, by norm_num, ?_⟩
  rw [aggregateSales_safe _ _ (by decide)]
  rfl
